import Mathlib

/-!
Verification development for the process-invocation and streaming layer of a
command-line-assistant client library (`claude_code/utils/subprocess.py`,
`claude_code/exceptions/__init__.py`, and the non-zero-exit interpretation in
`claude_code/conversation.py`).

The external subprocess is an opaque black box; it is modelled by a `Proc`
record of observations at the process boundary (the lines it writes, its
stderr text, its exit code, its wall-clock duration, and what it has produced
at the moment a timeout kill lands).  Text is modelled post-decoding: the
Python layer decodes all process bytes as UTF-8 with replacement
(`errors="replace"`), so the `String` fields of `Proc` stand for the decoded
view of the opaque process's output.
-/

/-- Environment mappings (`os.environ`, the `env` overlay, the merged copy)
are modelled as association lists whose lookup is first-match, with
`dictSet` giving Python `dict` assignment semantics (replace the existing
binding, else append). -/
abbrev Dict := List (String × String)

/-- First-match lookup, the semantics of reading a key from a `dict`. -/
def lookup : Dict → String → Option String
  | [], _ => none
  | (k1, v1) :: rest, k => if k1 = k then some v1 else lookup rest k

/-- Python `d[k] = v`: replace the first binding of `k`, or append one. -/
def dictSet : Dict → String → String → Dict
  | [], k, v => [(k, v)]
  | (k1, v1) :: rest, k, v =>
      if k1 = k then (k, v) :: rest else (k1, v1) :: dictSet rest k v

/-- Python `base.update(overlay)`: assign each overlay entry in order. -/
def dictUpdate (base : Dict) : Dict → Dict
  | [] => base
  | (k, v) :: rest => dictUpdate (dictSet base k v) rest

/-- Lines 36-38 and 92-94 of `subprocess.py`:
`merged_env = os.environ.copy(); if env: merged_env.update(env)`.
The `if env:` test is Python truthiness, so an empty overlay dict skips the
update. -/
def merged_env (environ : Dict) (env : Option Dict) : Dict :=
  match env with
  | none => environ
  | some e => if e.isEmpty then environ else dictUpdate environ e

/-- Python truthiness of `Optional[str]`: `None` and `""` are falsy. -/
def truthyStr : Option String → Bool
  | none => false
  | some s => !s.isEmpty

/-- The exception classes of `claude_code/exceptions/__init__.py` plus the
builtin `ValueError` raised by `stream_json_command`. -/
inductive PyClass
  | exceptionCls
  | claudeCodeError
  | authenticationError
  | validationError
  | executionError
  | timeoutError
  | valueError
deriving DecidableEq, Repr

/-- The superclass of each class, read off the `class C(D):` headers:
`ClaudeCodeError(Exception)`, `AuthenticationError(ClaudeCodeError)`,
`ValidationError(ClaudeCodeError)`, `ExecutionError(ClaudeCodeError)`,
`TimeoutError(ExecutionError)`; `ValueError` is a builtin under
`Exception`. -/
def parentCls : PyClass → Option PyClass
  | .exceptionCls => none
  | .claudeCodeError => some .exceptionCls
  | .authenticationError => some .claudeCodeError
  | .validationError => some .claudeCodeError
  | .executionError => some .claudeCodeError
  | .timeoutError => some .executionError
  | .valueError => some .exceptionCls

/-- The class and all its ancestors, walking `parentCls` with fuel larger
than the depth of the hierarchy. -/
def ancestorsAux : Nat → PyClass → List PyClass
  | 0, c => [c]
  | n + 1, c =>
      c :: (match parentCls c with
            | none => []
            | some p => ancestorsAux n p)

/-- Method-resolution chain of a class. -/
def ancestors (c : PyClass) : List PyClass := ancestorsAux 7 c

/-- Python `issubclass(c, d)`. -/
def isSubclassOf (c d : PyClass) : Bool := (ancestors c).contains d

/-- An `except D:` handler catches a raised instance of class `c` exactly
when `c` is a subclass of `D`. -/
def catches (handler raised : PyClass) : Bool := isSubclassOf raised handler

/-- The payload set by `ExecutionError.__init__` (and inherited unchanged by
`TimeoutError`): message, `exit_code`, `stdout`, `stderr`. -/
structure ExecPayload where
  message : String
  exit_code : Option Int
  stdout : Option String
  stderr : Option String
deriving DecidableEq, Repr

/-- Raised exception values of the layer.  `TimeoutError` is a subclass of
`ExecutionError` and carries the same payload; `ValueError` carries only a
message. -/
inductive PyError
  | executionError (p : ExecPayload)
  | timeoutError (p : ExecPayload)
  | valueError (message : String)
deriving DecidableEq, Repr

/-- Class of a raised exception value. -/
def classOf : PyError → PyClass
  | .executionError _ => .executionError
  | .timeoutError _ => .timeoutError
  | .valueError _ => .valueError

/-- Payload of an exception value, when its class carries one. -/
def PyError.payload : PyError → Option ExecPayload
  | .executionError p => some p
  | .timeoutError p => some p
  | .valueError _ => none

/-- How the spawned child's standard input is wired.  The code can produce
`inherit` (stdin argument absent or `None`: the child shares the caller's
stream), `pipe` (`subprocess.run` given `input=` bytes), or `tempStore`
(the seekable temporary file of `stream_command`).  `closedStream` (a
devnull/closed stream) is expressible by the OS but never produced by this
code. -/
inductive StdinSpec
  | inherit
  | pipe
  | tempStore
  | closedStream
deriving DecidableEq, Repr

/-- Observations of one opaque subprocess at the process boundary.
`stdoutRaw` are the text-mode lines in written order, trailing newline
included as written; `stdoutAtKill`/`stderrAtKill` are what it has produced
when a streaming-mode timeout kill lands; `killedCode` is what `wait()`
returns after that kill (negative signal number on POSIX);
`runStdoutAtTimeout`/`runStderrAtTimeout` are the optional buffers attached
to `subprocess.TimeoutExpired` in blocking mode. -/
structure Proc where
  spawnOk : Bool
  spawnErrMsg : String
  stdoutRaw : List String
  stderrFull : String
  exitCode : Int
  duration : Nat
  stdoutAtKill : Nat
  stderrAtKill : String
  killedCode : Int
  runStdoutAtTimeout : Option String
  runStderrAtTimeout : Option String
deriving DecidableEq, Repr

/-- Full blocking-mode stdout text: the concatenation of the written lines. -/
def fullStdoutText (p : Proc) : String := String.join p.stdoutRaw

/-- Line 58-59 of `subprocess.py`:
`e.stdout.decode("utf-8", errors="replace") if e.stdout else ""` — the
captured buffer when one exists, the empty string otherwise. -/
def decodedOrEmpty : Option String → String
  | none => ""
  | some s => s

/-- Whether `subprocess.run(..., timeout=timeout)` raises `TimeoutExpired`:
only when a timeout is supplied and the process outlives it.  Blocking mode
passes the timeout straight through with no truthiness test. -/
def blockingTimedOut (proc : Proc) : Option Nat → Bool
  | none => false
  | some t => decide (t < proc.duration)

/-- Outcome of one blocking invocation: the returned triple or the raised
exception. -/
inductive RunOutcome
  | ok (exit_code : Int) (stdout stderr : String)
  | raised (e : PyError)
deriving DecidableEq, Repr

/-- Everything observable about one `run_command` call: its outcome, the
stdin wiring handed to the OS, the bytes written to the child's stdin, the
environment mapping passed to the spawn, and the caller's environment after
the call. -/
structure RunResult where
  outcome : RunOutcome
  stdinSpec : StdinSpec
  inputWritten : Option String
  envUsed : Dict
  environAfter : Dict
deriving DecidableEq, Repr

/-- Shallow embedding of `run_command` (`subprocess.py` lines 14-67).
The source computes a local `stdin = subprocess.PIPE if input_data else None`
that is never passed to `subprocess.run`; the effective wiring is therefore
decided by the `input=` argument alone: truthy input opens a pipe and writes
the encoded text, otherwise no stdin argument is given and the child
inherits the caller's stream.  On `TimeoutExpired` the handler re-raises a
`TimeoutError` with `exit_code=None` and the optional captured buffers
decoded or emptied; any other `SubprocessError` (spawn failure) is wrapped
as a bare `ExecutionError`; a clean exit returns the triple whatever the
exit code. -/
def run_command (environ : Dict) (proc : Proc) (cmd : List String)
    (env : Option Dict) (timeout : Option Nat) (input_data : Option String) :
    RunResult :=
  let menv := merged_env environ env
  let sspec : StdinSpec := if truthyStr input_data then .pipe else .inherit
  let written : Option String := if truthyStr input_data then input_data else none
  if proc.spawnOk = false then
    { outcome := .raised (.executionError
        ⟨"Error running command: " ++ proc.spawnErrMsg, none, none, none⟩),
      stdinSpec := sspec, inputWritten := written,
      envUsed := menv, environAfter := environ }
  else if blockingTimedOut proc timeout then
    { outcome := .raised (.timeoutError
        ⟨"Command timed out after " ++ toString (timeout.getD 0) ++ " seconds",
         none,
         some (decodedOrEmpty proc.runStdoutAtTimeout),
         some (decodedOrEmpty proc.runStderrAtTimeout)⟩),
      stdinSpec := sspec, inputWritten := written,
      envUsed := menv, environAfter := environ }
  else
    { outcome := .ok proc.exitCode (fullStdoutText proc) proc.stderrFull,
      stdinSpec := sspec, inputWritten := written,
      envUsed := menv, environAfter := environ }

/-- Whether the side-channel timer of `stream_command` kills the process:
line 116 guards timer creation with Python truthiness (`if timeout:`, so a
zero timeout schedules no timer), and the `threading.Timer` fires only if
the process outlives the configured duration. -/
def streamTimedOut (proc : Proc) : Option Nat → Bool
  | none => false
  | some t => t != 0 && decide (t < proc.duration)

/-- Final state of the subprocess handle as acted on by `stream_command`
itself: `reaped code` when the function called `wait()` (directly or after
its own `kill()`), `unreaped` when the function returned without killing or
waiting, leaving the process running or a zombie. -/
inductive ProcFinal
  | reaped (code : Int)
  | unreaped
deriving DecidableEq, Repr

/-- How one consumption of the streaming generator ended. -/
inductive StreamOutcome
  | completed
  | raised (e : PyError)
  | abandoned
deriving DecidableEq, Repr

/-- Everything observable about one consumption of a `stream_command`
generator: the lines the consumer received, how the iteration ended, whether
and how the child was spawned, the subprocess handle's final state, the
temporary input store's lifecycle, and the caller's environment after the
call. -/
structure StreamRun where
  yielded : List String
  outcome : StreamOutcome
  spawned : Bool
  stdinSpec : Option StdinSpec
  procFinal : Option ProcFinal
  tmpCreated : Bool
  tmpOpenAtExit : Bool
  envUsed : Option Dict
  environAfter : Dict
deriving DecidableEq, Repr

/-- Python `line.rstrip("\n")`: strip every trailing newline character. -/
def rstripNL (s : String) : String :=
  String.mk ((s.toList.reverse.dropWhile (fun c => c = '\n')).reverse)

/-- Shallow embedding of `stream_command` (`subprocess.py` lines 70-160) as
consumed by a caller that pulls at most `pulls` lines (`none` = pull to
exhaustion).  Generator semantics of the source:

* `pulls = some 0`: the generator object is returned but never resumed, so
  none of the body runs — no temp store, no spawn.
* A truthy `input_data` creates the seekable temporary store and wires the
  child's stdin to it; otherwise `stdin=None` and the child inherits the
  caller's stream.
* A `Popen` failure is caught by `except Exception` (no handle exists, so no
  kill) and wrapped as `ExecutionError`; the `finally` closes any store.
* With a truthy timeout, the timer kills a still-running process after the
  configured duration; iteration then sees end-of-stream after the lines
  written before the kill, `wait()` returns the kill code, and the non-zero
  exit check raises `ExecutionError` (the fired timer raises nothing
  itself).
* If the consumer stops pulling while the generator is suspended at a
  yield (it pulled no more than the available lines), `GeneratorExit` is
  thrown at the yield; `except Exception` does NOT catch `GeneratorExit`, so
  no kill or `wait()` runs — only the `finally` closes the store.
* Otherwise the loop exhausts the stream, `wait()` reaps the process, the
  timer is cancelled, and a non-zero exit code raises `ExecutionError` with
  `stdout=""` and the full stderr text read at that point. -/
def stream_command (environ : Dict) (proc : Proc) (cmd : List String)
    (env : Option Dict) (timeout : Option Nat) (input_data : Option String)
    (pulls : Option Nat) : StreamRun :=
  match pulls with
  | some 0 =>
      { yielded := [], outcome := .abandoned, spawned := false,
        stdinSpec := none, procFinal := none, tmpCreated := false,
        tmpOpenAtExit := false, envUsed := none, environAfter := environ }
  | _ =>
      let menv := merged_env environ env
      let tmpCreated := truthyStr input_data
      let sspec : StdinSpec := if tmpCreated then .tempStore else .inherit
      if proc.spawnOk = false then
        { yielded := [], outcome := .raised (.executionError
            ⟨"Error running command: " ++ proc.spawnErrMsg, none, none, none⟩),
          spawned := false, stdinSpec := none, procFinal := none,
          tmpCreated := tmpCreated, tmpOpenAtExit := false,
          envUsed := some menv, environAfter := environ }
      else
        let fired := streamTimedOut proc timeout
        let avail := (if fired then proc.stdoutRaw.take proc.stdoutAtKill
                      else proc.stdoutRaw).map rstripNL
        let ec := if fired then proc.killedCode else proc.exitCode
        let errText := if fired then proc.stderrAtKill else proc.stderrFull
        let fullTail : StreamRun :=
          if ec ≠ 0 then
            { yielded := avail, outcome := .raised (.executionError
                ⟨"Command failed with exit code " ++ toString ec,
                 some ec, some "", some errText⟩),
              spawned := true, stdinSpec := some sspec,
              procFinal := some (.reaped ec), tmpCreated := tmpCreated,
              tmpOpenAtExit := false, envUsed := some menv,
              environAfter := environ }
          else
            { yielded := avail, outcome := .completed, spawned := true,
              stdinSpec := some sspec, procFinal := some (.reaped ec),
              tmpCreated := tmpCreated, tmpOpenAtExit := false,
              envUsed := some menv, environAfter := environ }
        match pulls with
        | none => fullTail
        | some n =>
            if avail.length < n then fullTail
            else
              { yielded := avail.take n, outcome := .abandoned,
                spawned := true, stdinSpec := some sspec,
                procFinal := some .unreaped, tmpCreated := tmpCreated,
                tmpOpenAtExit := false, envUsed := some menv,
                environAfter := environ }

/-- Python whitespace, the character class removed by `str.strip()`. -/
def pyIsSpace (c : Char) : Bool :=
  c = ' ' || c = '\t' || c = '\n' || c = '\r' || c = '\u000B' || c = '\u000C'

/-- Python `s.strip()`. -/
def pyStrip (s : String) : String :=
  String.mk (((s.toList.dropWhile pyIsSpace).reverse.dropWhile pyIsSpace).reverse)

/-- The `if not line.strip(): continue` test of `stream_json_command`. -/
def pyBlank (s : String) : Bool := (pyStrip s).isEmpty

/-- Result of running the decoding loop of `stream_json_command` over a line
sequence: the records yielded, the `ValueError` raised at the first
malformed non-blank line (if any), and how many lines were consumed. -/
structure JsonLinesRun (J : Type) where
  records : List J
  decodeFailure : Option PyError
  consumed : Nat
deriving DecidableEq, Repr

/-- Shallow embedding of the loop of `stream_json_command` (`subprocess.py`
lines 186-192) over the line sequence yielded by `stream_command`.  The JSON
decoder itself (`json.loads`) is standard-library code outside this
repository and is passed in as `loads`.  Blank lines are skipped; a decoded
line is yielded; the first decode failure raises `ValueError` wrapping the
diagnostic, and no further line is consumed. -/
def stream_json_lines {J : Type} (loads : String → Except String J) :
    List String → JsonLinesRun J
  | [] => { records := [], decodeFailure := none, consumed := 0 }
  | l :: rest =>
      if pyBlank l then
        let r := stream_json_lines loads rest
        { records := r.records, decodeFailure := r.decodeFailure,
          consumed := r.consumed + 1 }
      else
        match loads l with
        | .ok j =>
            let r := stream_json_lines loads rest
            { records := j :: r.records, decodeFailure := r.decodeFailure,
              consumed := r.consumed + 1 }
        | .error m =>
            { records := [],
              decodeFailure := some (.valueError
                ("Error parsing JSON from command output: " ++ m)),
              consumed := 1 }

/-- The records a fully successful decode yields: one per non-blank line, in
order. -/
def okRecords {J : Type} (loads : String → Except String J)
    (lines : List String) : List J :=
  lines.filterMap (fun l => if pyBlank l then none else (loads l).toOption)

/-- Whether a decode succeeds. -/
def exOk {J : Type} : Except String J → Bool
  | .ok _ => true
  | .error _ => false

/-- A toy stand-in for `json.loads` used to evaluate the decoder loop on
concrete lines: accepts exactly the canonical object line of the spec
scenario. -/
def toyLoads : String → Except String Nat :=
  fun s => if s = "\x7b\"a\":1\x7d" then .ok 1 else .error "Expecting value"

/-- A process that writes nothing and would run five seconds: the
stand-in for a hanging command under a one-second timeout. -/
def hangProc : Proc :=
  { spawnOk := true, spawnErrMsg := "", stdoutRaw := [], stderrFull := "",
    exitCode := 0, duration := 5, stdoutAtKill := 0, stderrAtKill := "",
    killedCode := -9, runStdoutAtTimeout := none, runStderrAtTimeout := none }

/-- A process that writes three lines and exits cleanly. -/
def threeLineProc : Proc :=
  { spawnOk := true, spawnErrMsg := "", stdoutRaw := ["a\n", "b\n", "c\n"],
    stderrFull := "", exitCode := 0, duration := 0, stdoutAtKill := 0,
    stderrAtKill := "", killedCode := -9, runStdoutAtTimeout := none,
    runStderrAtTimeout := none }

/-- A process that writes one stdout line and one stderr word, then exits
with code 1: the failing-command scenario of the spec. -/
def boomProc : Proc :=
  { spawnOk := true, spawnErrMsg := "", stdoutRaw := ["partial\n"],
    stderrFull := "boom", exitCode := 1, duration := 0, stdoutAtKill := 0,
    stderrAtKill := "", killedCode := -9, runStdoutAtTimeout := none,
    runStderrAtTimeout := none }

/-- A process that exits cleanly with code 2. -/
def exit2Proc : Proc :=
  { spawnOk := true, spawnErrMsg := "", stdoutRaw := ["out\n"],
    stderrFull := "err", exitCode := 2, duration := 0, stdoutAtKill := 0,
    stderrAtKill := "", killedCode := -9, runStdoutAtTimeout := none,
    runStderrAtTimeout := none }

/-- A process that outlives a ten-second blocking timeout with some stdout
buffered and no stderr buffered at the kill. -/
def slowProc : Proc :=
  { spawnOk := true, spawnErrMsg := "", stdoutRaw := [], stderrFull := "",
    exitCode := 0, duration := 20, stdoutAtKill := 0, stderrAtKill := "",
    killedCode := -9, runStdoutAtTimeout := some "Partial output",
    runStderrAtTimeout := none }

/-- Class of the exception a stream consumption raised, if it raised one. -/
def raisedClass : StreamOutcome → Option PyClass
  | .raised e => some (classOf e)
  | _ => none

/-- Outcome of one conversation turn after the blocking run, from
`Conversation.send` lines 158-167. -/
inductive SendResult
  | ok (response : String)
  | raised (e : PyError)
deriving DecidableEq, Repr

/-- Shallow embedding of the non-zero-exit interpretation in
`Conversation.send`: the caller, not the runner, raises `ExecutionError`
with exit code, stdout and stderr attached, and returns stdout on exit
code 0. -/
def send_interpret (exit_code : Int) (stdout stderr : String) : SendResult :=
  if exit_code ≠ 0 then
    .raised (.executionError
      ⟨"Claude Code failed with exit code " ++ toString exit_code,
       some exit_code, some stdout, some stderr⟩)
  else
    .ok stdout

theorem lookup_dictSet_same (d : Dict) (k v : String) :
    lookup (dictSet d k v) k = some v := by
  induction d with
  | nil => simp [dictSet, lookup]
  | cons p rest ih =>
      obtain ⟨k1, v1⟩ := p
      by_cases h : k1 = k
      · simp [dictSet, h, lookup]
      · simp [dictSet, h, lookup, ih]

theorem lookup_dictSet_other (d : Dict) (k v k2 : String) (h : k ≠ k2) :
    lookup (dictSet d k v) k2 = lookup d k2 := by
  induction d with
  | nil => simp [dictSet, lookup, h]
  | cons p rest ih =>
      obtain ⟨k1, v1⟩ := p
      by_cases h1 : k1 = k
      · subst h1
        simp [dictSet, lookup, h]
      · simp [dictSet, h1, lookup, ih]

theorem lookup_dictUpdate_notmem (ovl : Dict) (base : Dict) (k : String)
    (h : k ∉ ovl.map Prod.fst) :
    lookup (dictUpdate base ovl) k = lookup base k := by
  induction ovl generalizing base with
  | nil => rfl
  | cons p rest ih =>
      obtain ⟨k1, v1⟩ := p
      simp only [List.map_cons, List.mem_cons, not_or] at h
      rw [dictUpdate, ih _ h.2, lookup_dictSet_other]
      exact fun hk => h.1 hk.symm

theorem lookup_dictUpdate_mem (ovl : Dict) (base : Dict) (k v : String)
    (hnd : (ovl.map Prod.fst).Nodup) (h : lookup ovl k = some v) :
    lookup (dictUpdate base ovl) k = some v := by
  induction ovl generalizing base with
  | nil => simp [lookup] at h
  | cons p rest ih =>
      obtain ⟨k1, v1⟩ := p
      simp only [List.map_cons, List.nodup_cons] at hnd
      rw [dictUpdate]
      by_cases hk : k1 = k
      · subst hk
        have hv : v1 = v := by simpa [lookup] using h
        rw [lookup_dictUpdate_notmem _ _ _ hnd.1, lookup_dictSet_same, hv]
      · have h2 : lookup rest k = some v := by simpa [lookup, hk] using h
        exact ih (dictSet base k1 v1) hnd.2 h2

theorem lookup_eq_none_notmem (d : Dict) (k : String)
    (h : lookup d k = none) : k ∉ d.map Prod.fst := by
  induction d with
  | nil => simp
  | cons p rest ih =>
      obtain ⟨k1, v1⟩ := p
      by_cases hk : k1 = k
      · simp [lookup, hk] at h
      · simp only [lookup, hk, if_false] at h
        simp only [List.map_cons, List.mem_cons, not_or]
        exact ⟨fun he => hk he.symm, ih h⟩

theorem run_command_environAfter (environ : Dict) (proc : Proc)
    (cmd : List String) (env : Option Dict) (timeout : Option Nat)
    (input_data : Option String) :
    (run_command environ proc cmd env timeout input_data).environAfter
      = environ := by
  simp only [run_command]
  split
  · rfl
  · split <;> rfl

theorem run_command_envUsed (environ : Dict) (proc : Proc)
    (cmd : List String) (env : Option Dict) (timeout : Option Nat)
    (input_data : Option String) :
    (run_command environ proc cmd env timeout input_data).envUsed
      = merged_env environ env := by
  simp only [run_command]
  split
  · rfl
  · split <;> rfl

theorem stream_command_environAfter (environ : Dict) (proc : Proc)
    (cmd : List String) (env : Option Dict) (timeout : Option Nat)
    (input_data : Option String) (pulls : Option Nat) :
    (stream_command environ proc cmd env timeout input_data pulls).environAfter
      = environ := by
  rcases pulls with _ | (_ | n) <;> (simp only [stream_command]; repeat' split) <;> rfl

theorem stream_json_lines_ok {J : Type} (loads : String → Except String J)
    (lines : List String)
    (h : ∀ l ∈ lines, pyBlank l = true ∨ exOk (loads l) = true) :
    stream_json_lines loads lines
      = ⟨okRecords loads lines, none, lines.length⟩ := by
  induction lines with
  | nil => rfl
  | cons l rest ih =>
      have hl := h l (by simp)
      have hr : ∀ x ∈ rest, pyBlank x = true ∨ exOk (loads x) = true :=
        fun x hx => h x (by simp [hx])
      by_cases hb : pyBlank l
      · simp [stream_json_lines, hb, ih hr, okRecords]
      · rcases hl with hl | hl
        · exact absurd hl hb
        · cases hlds : loads l with
          | error m => rw [hlds] at hl; simp [exOk] at hl
          | ok j =>
              simp [stream_json_lines, hb, hlds, ih hr, okRecords,
                    Except.toOption]

theorem stream_json_lines_err {J : Type} (loads : String → Except String J)
    (pre post : List String) (bad m : String)
    (hpre : ∀ l ∈ pre, pyBlank l = true ∨ exOk (loads l) = true)
    (hb : pyBlank bad = false) (hbad : loads bad = .error m) :
    stream_json_lines loads (pre ++ bad :: post)
      = ⟨okRecords loads pre,
         some (.valueError ("Error parsing JSON from command output: " ++ m)),
         pre.length + 1⟩ := by
  induction pre with
  | nil => simp [stream_json_lines, hb, hbad, okRecords]
  | cons l rest ih =>
      have hl := hpre l (by simp)
      have hr : ∀ x ∈ rest, pyBlank x = true ∨ exOk (loads x) = true :=
        fun x hx => hpre x (by simp [hx])
      by_cases hbl : pyBlank l
      · simp [stream_json_lines, hbl, ih hr, okRecords]
      · rcases hl with hl | hl
        · exact absurd hl hbl
        · cases hlds : loads l with
          | error m2 => rw [hlds] at hl; simp [exOk] at hl
          | ok j =>
              simp [stream_json_lines, hbl, hlds, ih hr, okRecords,
                    Except.toOption]

/-- C9: `TimeoutError` is declared as a subclass of `ExecutionError` and
inherits its payload (`exit_code`, `stdout`, `stderr`), so the two error
kinds are not disjoint: every handler that catches `ExecutionError` also
catches a raised `TimeoutError`. -/
theorem timeout_is_execution_subclass :
    isSubclassOf PyClass.timeoutError PyClass.executionError = true ∧
    (∀ p : ExecPayload,
      catches PyClass.executionError (classOf (PyError.timeoutError p)) = true) ∧
    (∀ p : ExecPayload, (PyError.timeoutError p).payload = some p) :=
  ⟨by decide, fun _ => rfl, fun _ => rfl⟩

theorem run_command_inputWritten (environ : Dict) (proc : Proc)
    (cmd : List String) (env : Option Dict) (timeout : Option Nat)
    (input_data : Option String) :
    (run_command environ proc cmd env timeout input_data).inputWritten
      = if truthyStr input_data then input_data else none := by
  simp only [run_command]
  repeat' split
  all_goals rfl

/-- C10: supplying the empty string as input behaves exactly as supplying no
input, in all three modes: the blocking and streaming runs are equal as whole
observations (so no bytes are written to stdin and no temporary store is
created), and the JSON decoding of the streamed lines is likewise equal. -/
theorem empty_input_equals_no_input (environ : Dict) (proc : Proc)
    (cmd : List String) (env : Option Dict) (timeout : Option Nat)
    (pulls : Option Nat) (J : Type) (loads : String → Except String J) :
    run_command environ proc cmd env timeout (some "")
        = run_command environ proc cmd env timeout none ∧
    stream_command environ proc cmd env timeout (some "") pulls
        = stream_command environ proc cmd env timeout none pulls ∧
    (run_command environ proc cmd env timeout (some "")).inputWritten = none ∧
    (stream_command environ proc cmd env timeout (some "") pulls).tmpCreated
        = false ∧
    stream_json_lines loads
        (stream_command environ proc cmd env timeout (some "") pulls).yielded
      = stream_json_lines loads
        (stream_command environ proc cmd env timeout none pulls).yielded := by
  have hs : stream_command environ proc cmd env timeout (some "") pulls
      = stream_command environ proc cmd env timeout none pulls := rfl
  have ht : (stream_command environ proc cmd env timeout none pulls).tmpCreated
      = false := by
    rcases pulls with _ | (_ | n) <;>
      (simp only [stream_command]; repeat' split) <;> rfl
  exact ⟨rfl, hs,
         (run_command_inputWritten environ proc cmd env timeout
           (some "")).trans rfl,
         hs ▸ ht, hs ▸ rfl⟩

/-- C8: every invocation builds a fresh merged environment, where an overlay
binding wins on key collision, an inherited key absent from the overlay
keeps its inherited value, and the inherited environment itself is returned
to the caller unchanged by both runners. -/
theorem env_merge_correct (environ ovl : Dict) (k : String)
    (hnd : (ovl.map Prod.fst).Nodup) :
    (∀ v, lookup ovl k = some v →
        lookup (merged_env environ (some ovl)) k = some v) ∧
    (lookup ovl k = none →
        lookup (merged_env environ (some ovl)) k = lookup environ k) ∧
    (∀ (proc : Proc) (cmd : List String) (timeout : Option Nat)
        (input_data : Option String),
      (run_command environ proc cmd (some ovl) timeout input_data).envUsed
          = merged_env environ (some ovl) ∧
      (run_command environ proc cmd (some ovl) timeout input_data).environAfter
          = environ) ∧
    (∀ (proc : Proc) (cmd : List String) (timeout : Option Nat)
        (input_data : Option String) (pulls : Option Nat),
      (stream_command environ proc cmd (some ovl) timeout input_data
          pulls).environAfter = environ) := by
  refine ⟨?_, ?_, ?_, ?_⟩
  · intro v hv
    rcases ovl with _ | ⟨p, rest⟩
    · simp [lookup] at hv
    · simp only [merged_env, List.isEmpty_cons, if_false, Bool.false_eq_true]
      exact lookup_dictUpdate_mem _ _ _ _ hnd hv
  · intro hnone
    rcases ovl with _ | ⟨p, rest⟩
    · rfl
    · simp only [merged_env, List.isEmpty_cons, if_false, Bool.false_eq_true]
      exact lookup_dictUpdate_notmem _ _ _ (lookup_eq_none_notmem _ _ hnone)
  · exact fun proc cmd timeout input_data =>
      ⟨run_command_envUsed environ proc cmd (some ovl) timeout input_data,
       run_command_environAfter environ proc cmd (some ovl) timeout input_data⟩
  · exact fun proc cmd timeout input_data pulls =>
      stream_command_environAfter environ proc cmd (some ovl) timeout
        input_data pulls

/-- Witness for C8 at a concrete environment and overlay: the overlay wins
for PATH, the untouched HOME keeps its inherited value, and the runner hands
back the inherited environment unchanged. -/
theorem env_merge_correct_witness :
    lookup (merged_env [("PATH", "p"), ("HOME", "h")]
        (some [("A", "1"), ("PATH", "q")])) "PATH" = some "q" ∧
    lookup (merged_env [("PATH", "p"), ("HOME", "h")]
        (some [("A", "1"), ("PATH", "q")])) "HOME"
      = lookup [("PATH", "p"), ("HOME", "h")] "HOME" ∧
    (run_command [("PATH", "p"), ("HOME", "h")] boomProc ["claude"]
        (some [("A", "1"), ("PATH", "q")]) none none).environAfter
      = [("PATH", "p"), ("HOME", "h")] := by
  have h := env_merge_correct [("PATH", "p"), ("HOME", "h")]
    [("A", "1"), ("PATH", "q")] "PATH" (by decide)
  have h2 := env_merge_correct [("PATH", "p"), ("HOME", "h")]
    [("A", "1"), ("PATH", "q")] "HOME" (by decide)
  exact ⟨h.1 "q" (by decide), h2.2.1 (by decide),
         (h.2.2.1 boomProc ["claude"] none none).2⟩

theorem run_command_stdinSpec (environ : Dict) (proc : Proc)
    (cmd : List String) (env : Option Dict) (timeout : Option Nat)
    (input_data : Option String) :
    (run_command environ proc cmd env timeout input_data).stdinSpec
      = if truthyStr input_data then StdinSpec.pipe else StdinSpec.inherit := by
  simp only [run_command]
  repeat' split
  all_goals rfl

theorem stream_command_tmpCreated_noinput (environ : Dict) (proc : Proc)
    (cmd : List String) (env : Option Dict) (timeout : Option Nat)
    (pulls : Option Nat) :
    (stream_command environ proc cmd env timeout none pulls).tmpCreated
      = false := by
  rcases pulls with _ | (_ | n) <;>
    (simp only [stream_command]; repeat' split) <;> rfl

/-- C1 fails on the code: for a streaming invocation whose subprocess
outlives the configured timeout, the timer does kill the subprocess (so it
is reaped and no longer running), but the error the call then raises is an
`ExecutionError` built from the kill's exit code — not the `TimeoutError`
that the function's own docstring promises.  Evaluated at a hanging command
under a one-second timeout. -/
theorem stream_timeout_raises_execution_not_timeout :
    (stream_command [] hangProc ["claude", "-p", "hello"] none (some 1) none
        none).outcome
      = StreamOutcome.raised (PyError.executionError
          ⟨"Command failed with exit code -9", some (-9), some "", some ""⟩) ∧
    raisedClass (stream_command [] hangProc ["claude", "-p", "hello"] none
        (some 1) none none).outcome
      = some PyClass.executionError ∧
    some PyClass.executionError ≠ some PyClass.timeoutError ∧
    (stream_command [] hangProc ["claude", "-p", "hello"] none (some 1) none
        none).procFinal
      = some (ProcFinal.reaped (-9)) := by
  decide

/-- C2 fails on the code: when the consumer abandons the streaming iteration
after one of three lines, the `finally` block still releases the temporary
input store, but `GeneratorExit` is not an `Exception`, so the
`except Exception` cleanup never runs: the subprocess is neither killed nor
reaped before control returns to the caller. -/
theorem stream_abandoned_leaves_process_unreaped :
    (stream_command [] threeLineProc ["claude"] none none (some "hi")
        (some 1)).yielded = ["a"] ∧
    (stream_command [] threeLineProc ["claude"] none none (some "hi")
        (some 1)).outcome = StreamOutcome.abandoned ∧
    (stream_command [] threeLineProc ["claude"] none none (some "hi")
        (some 1)).procFinal = some ProcFinal.unreaped ∧
    (stream_command [] threeLineProc ["claude"] none none (some "hi")
        (some 1)).tmpCreated = true ∧
    (stream_command [] threeLineProc ["claude"] none none (some "hi")
        (some 1)).tmpOpenAtExit = false := by
  decide

/-- C3: a streaming command that exits non-zero (no timeout firing) yields
exactly the lines written before exit, in order and newline-stripped, and
after exhaustion raises an `ExecutionError` carrying that exit code, the
captured stdout (empty in streaming mode, since every line was yielded
rather than captured), and the full captured stderr text; the process is
reaped. -/
theorem stream_nonzero_exit (environ : Dict) (proc : Proc)
    (cmd : List String) (env : Option Dict) (timeout : Option Nat)
    (input_data : Option String) (hspawn : proc.spawnOk = true)
    (hto : streamTimedOut proc timeout = false)
    (hec : proc.exitCode ≠ 0) :
    (stream_command environ proc cmd env timeout input_data none).yielded
        = proc.stdoutRaw.map rstripNL ∧
    (stream_command environ proc cmd env timeout input_data none).outcome
        = StreamOutcome.raised (PyError.executionError
            ⟨"Command failed with exit code " ++ toString proc.exitCode,
             some proc.exitCode, some "", some proc.stderrFull⟩) ∧
    (stream_command environ proc cmd env timeout input_data none).procFinal
        = some (ProcFinal.reaped proc.exitCode) := by
  simp [stream_command, hspawn, hto, hec]

/-- Witness for C3 at the spec's failing-command scenario: one line
`"partial\n"`, stderr `"boom"`, exit code 1. -/
theorem stream_nonzero_exit_witness :
    (stream_command [] boomProc ["claude"] none none none none).yielded
        = ["partial"] ∧
    (stream_command [] boomProc ["claude"] none none none none).outcome
        = StreamOutcome.raised (PyError.executionError
            ⟨"Command failed with exit code 1", some 1, some "", some "boom"⟩) ∧
    (stream_command [] boomProc ["claude"] none none none none).procFinal
        = some (ProcFinal.reaped 1) := by
  have h := stream_nonzero_exit [] boomProc ["claude"] none none none rfl rfl
    (by decide)
  exact ⟨h.1.trans (by decide), h.2.1.trans (by decide), h.2.2⟩

/-- C4: a blocking invocation whose subprocess exits cleanly (spawn
succeeded, no timeout) never raises, whatever the exit code: it returns the
triple as-is, and the non-zero-exit interpretation happens one layer up in
`Conversation.send`, which raises its own `ExecutionError` carrying exit
code, stdout and stderr. -/
theorem run_clean_exit_returns_triple (environ : Dict) (proc : Proc)
    (cmd : List String) (env : Option Dict) (timeout : Option Nat)
    (input_data : Option String) (hspawn : proc.spawnOk = true)
    (hto : blockingTimedOut proc timeout = false) :
    (run_command environ proc cmd env timeout input_data).outcome
        = RunOutcome.ok proc.exitCode (fullStdoutText proc) proc.stderrFull ∧
    (∀ (ec : Int) (out err : String), ec ≠ 0 →
      send_interpret ec out err
        = SendResult.raised (PyError.executionError
            ⟨"Claude Code failed with exit code " ++ toString ec,
             some ec, some out, some err⟩)) ∧
    (∀ out err : String, send_interpret 0 out err = SendResult.ok out) := by
  refine ⟨?_, ?_, ?_⟩
  · simp [run_command, hspawn, hto]
  · intro ec out err hne
    simp [send_interpret, hne]
  · intro out err
    rfl

/-- Witness for C4 at a concrete process exiting with code 2: the runner
returns the triple, and the conversation layer raises. -/
theorem run_clean_exit_returns_triple_witness :
    (run_command [] exit2Proc ["claude"] none (some 30) none).outcome
        = RunOutcome.ok 2 "out\n" "err" ∧
    send_interpret 2 "out\n" "err"
        = SendResult.raised (PyError.executionError
            ⟨"Claude Code failed with exit code 2", some 2, some "out\n",
             some "err"⟩) := by
  have h := run_clean_exit_returns_triple [] exit2Proc ["claude"] none
    (some 30) none rfl (by decide)
  exact ⟨h.1.trans (by decide), (h.2.1 2 "out\n" "err" (by decide)).trans
    (by decide)⟩

/-- C5: a blocking invocation that exceeds its configured timeout raises a
`TimeoutError` whose exit code is absent and which carries the partial
stdout/stderr text captured up to the kill, each replaced by the empty
string when nothing was captured. -/
theorem run_timeout_error (environ : Dict) (proc : Proc)
    (cmd : List String) (env : Option Dict) (t : Nat)
    (input_data : Option String) (hspawn : proc.spawnOk = true)
    (hto : t < proc.duration) :
    (run_command environ proc cmd env (some t) input_data).outcome
        = RunOutcome.raised (PyError.timeoutError
            ⟨"Command timed out after " ++ toString t ++ " seconds",
             none,
             some (decodedOrEmpty proc.runStdoutAtTimeout),
             some (decodedOrEmpty proc.runStderrAtTimeout)⟩) ∧
    decodedOrEmpty none = "" ∧
    (∀ s : String, decodedOrEmpty (some s) = s) := by
  refine ⟨?_, rfl, fun _ => rfl⟩
  simp [run_command, blockingTimedOut, hspawn, hto]

/-- Witness for C5 at a process outliving a ten-second timeout with
`"Partial output"` buffered on stdout and nothing on stderr. -/
theorem run_timeout_error_witness :
    (run_command [] slowProc ["claude"] none (some 10) none).outcome
        = RunOutcome.raised (PyError.timeoutError
            ⟨"Command timed out after 10 seconds", none,
             some "Partial output", some ""⟩) := by
  have h := run_timeout_error [] slowProc ["claude"] none 10 none rfl
    (by decide)
  exact h.1.trans (by decide)

/-- C6 fails on the code: with no input text, neither runner closes the
subprocess's standard input.  `run_command` computes a local stdin
disposition but never passes it, and `stream_command` passes `stdin=None`;
in both modes the child's standard input is therefore inherited from the
caller — attached to whatever (possibly open) stream the caller has — and
not a closed/empty one. -/
theorem no_input_stdin_not_closed_cex :
    (run_command [] boomProc ["claude"] none none none).stdinSpec
        = StdinSpec.inherit ∧
    StdinSpec.inherit ≠ StdinSpec.closedStream ∧
    (stream_command [] boomProc ["claude"] none none none none).stdinSpec
        = some StdinSpec.inherit ∧
    some StdinSpec.inherit ≠ some StdinSpec.closedStream := by
  decide

/-- C6 as amended: with no input text supplied, the runner writes no bytes
to the child's standard input and attaches neither a pipe nor a temporary
store; the child's standard input is the caller's inherited stream (not a
closed one), so the runner itself never blocks feeding input. -/
theorem no_input_stdin_inherited (environ : Dict) (proc : Proc)
    (cmd : List String) (env : Option Dict) (timeout : Option Nat)
    (pulls : Option Nat) (hspawn : proc.spawnOk = true)
    (hpulls : pulls ≠ some 0) :
    (run_command environ proc cmd env timeout none).stdinSpec
        = StdinSpec.inherit ∧
    (run_command environ proc cmd env timeout none).inputWritten = none ∧
    (stream_command environ proc cmd env timeout none pulls).tmpCreated
        = false ∧
    (stream_command environ proc cmd env timeout none pulls).stdinSpec
        = some StdinSpec.inherit := by
  refine ⟨(run_command_stdinSpec environ proc cmd env timeout none).trans rfl,
          (run_command_inputWritten environ proc cmd env timeout none).trans
            rfl,
          stream_command_tmpCreated_noinput environ proc cmd env timeout
            pulls, ?_⟩
  rcases pulls with _ | (_ | n)
  · simp only [stream_command, hspawn]
    repeat' split
    all_goals first | rfl | simp_all [truthyStr]
  · exact absurd rfl hpulls
  · simp only [stream_command, hspawn]
    repeat' split
    all_goals first | rfl | simp_all [truthyStr]

/-- Witness for C6's amended statement at a concrete no-input invocation. -/
theorem no_input_stdin_inherited_witness :
    (run_command [] exit2Proc ["claude"] none none none).stdinSpec
        = StdinSpec.inherit ∧
    (stream_command [] exit2Proc ["claude"] none none none none).stdinSpec
        = some StdinSpec.inherit := by
  have h := no_input_stdin_inherited [] exit2Proc ["claude"] none none none
    rfl (by decide)
  exact ⟨h.1, h.2.2.2⟩

/-- C7: over any line sequence, the decoder loop of `stream_json_command`
skips blank lines without interrupting later decoding, yields one record per
non-blank line in order, and at the first malformed non-blank line raises a
`ValueError` (a kind that is not a subclass of `ExecutionError`) carrying
the decode diagnostic, consuming no line beyond the offending one. -/
theorem stream_json_decoder_semantics {J : Type}
    (loads : String → Except String J) (lines pre post : List String)
    (bad m : String) :
    ((∀ l ∈ lines, pyBlank l = true ∨ exOk (loads l) = true) →
      stream_json_lines loads lines
        = ⟨okRecords loads lines, none, lines.length⟩) ∧
    ((∀ l ∈ pre, pyBlank l = true ∨ exOk (loads l) = true) →
      pyBlank bad = false → loads bad = .error m →
      stream_json_lines loads (pre ++ bad :: post)
        = ⟨okRecords loads pre,
           some (PyError.valueError
             ("Error parsing JSON from command output: " ++ m)),
           pre.length + 1⟩) ∧
    isSubclassOf PyClass.valueError PyClass.executionError = false ∧
    (∀ s : String, classOf (PyError.valueError s) = PyClass.valueError) :=
  ⟨stream_json_lines_ok loads lines,
   fun h1 h2 h3 => stream_json_lines_err loads pre post bad m h1 h2 h3,
   by decide, fun _ => rfl⟩

/-- Witness for C7 at the spec scenario: a valid JSON line, a blank line,
then a malformed line — one record, a `ValueError`, three lines consumed;
and with no malformed line, blank lines are skipped and decoding reaches the
end. -/
theorem stream_json_decoder_semantics_witness :
    stream_json_lines toyLoads ["\x7b\"a\":1\x7d", " ", "not-json"]
      = ⟨[1], some (PyError.valueError
          "Error parsing JSON from command output: Expecting value"), 3⟩ ∧
    stream_json_lines toyLoads ["\x7b\"a\":1\x7d", ""] = ⟨[1], none, 2⟩ := by
  have h := stream_json_decoder_semantics toyLoads ["\x7b\"a\":1\x7d", ""]
    ["\x7b\"a\":1\x7d", " "] [] "not-json" "Expecting value"
  constructor
  · exact (h.2.1 (by decide) (by decide) rfl).trans (by decide)
  · exact (h.1 (by decide)).trans (by decide)
